import Mathlib

/-!
Shallow embedding of the HomeVisit AI streaming translation/compliance
pipeline (repository `homevisit-ai`), covering the parts of the code that
the specification's testable properties talk about:

* `src/src/vapi_integration/vapi_assistant_optimized.py`
  (`LocalTranslationService.translate`, `StreamingProcessor.process_stream`,
  `StreamingProcessor._extract_sentences`, `OptimizedComplianceChecker.check_compliance`,
  the `/vapi/webhook` dispatch over the single global `stream_processor`);
* `src/src/vapi_integration/webhook_translator.py` and its duplicate in
  `src/apps/api/main.py` (`TranslationService.translate`, `ComplianceChecker.check`
  alias `check_compliance`, the `speech.update` branch of `vapi_webhook`);
* `src/src/vapi_integration/vapi_assistant.py`
  (`TranslationService.translate` with two providers,
  `ComplianceChecker.check_compliance`);
* the `/translate` endpoint of `src/apps/api/main.py`.

Modelling conventions: Python strings are `String` manipulated through their
`List Char` data (Python's `in`, `.lower()`, `.strip()`, `.upper()`, slicing
are re-implemented below; `.lower()` is restricted to ASCII plus the German
letters appearing in this code base). Similarity scores coming back from the
Qdrant vector store are rationals (only order comparisons against literal
thresholds occur in the code). Network calls (DeepL, Google, OpenAI, Qdrant
search, the local transformer pipelines) are external collaborators and enter
as explicit oracle parameters; an oracle answering `none` models the call
raising an exception (or, for translation providers, any failed attempt).
Timing/metrics code is omitted: it never influences the returned values.
-/

/-- Python `str.lower` on one character, restricted to ASCII letters plus the
uppercase German umlauts occurring in this code base. -/
def pyLowerChar (c : Char) : Char :=
  if c == 'Ä' then 'ä'
  else if c == 'Ö' then 'ö'
  else if c == 'Ü' then 'ü'
  else c.toLower

/-- Python `str.lower` (see `pyLowerChar` for the alphabet covered). -/
def pyLower (s : String) : String := ⟨s.data.map pyLowerChar⟩

/-- Python `str.upper`, used only on ASCII language codes in this code. -/
def pyUpper (s : String) : String := ⟨s.data.map Char.toUpper⟩

/-- Python `str.strip`: drop leading and trailing whitespace. -/
def pyStrip (s : String) : String :=
  ⟨((s.data.dropWhile Char.isWhitespace).reverse.dropWhile Char.isWhitespace).reverse⟩

/-- Does the character list start with the given needle? -/
def leadEq : List Char → List Char → Bool
  | [], _ => true
  | _ :: _, [] => false
  | a :: as, b :: bs => a == b && leadEq as bs

/-- Scan a haystack for an occurrence of the needle at any position. -/
def subScan (needle : List Char) : List Char → Bool
  | [] => needle.isEmpty
  | c :: rest => leadEq needle (c :: rest) || subScan needle rest

/-- Python's substring test `needle in haystack`. -/
def containsSub (needle haystack : String) : Bool :=
  subScan needle.data haystack.data

/-- A scored knowledge chunk as returned by `TenantLawQdrant.search`
(`src/src/ingestion/qdrant_ingestion.py`); only the fields read by the
compliance checkers are modelled. -/
structure Chunk where
  score : ℚ
  title : String
  key_rule : String
  expat_implication : String
  deriving DecidableEq, Repr

/-- One invocation of `TenantLawQdrant.search`, recording the arguments the
caller passed (query text, `limit`, `risk_filter`). -/
structure SearchCall where
  query : String
  limit : Nat
  risk_filter : String
  deriving DecidableEq, Repr

/-- The compliance dictionaries returned by `check_compliance` in
`apps/api/main.py` / `webhook_translator.py` and by
`OptimizedComplianceChecker.check_compliance`: a risk level plus the optional
keys (`pattern`, `match`, `warning`) that the various return sites populate. -/
structure ComplianceResult where
  risk_level : String
  pattern : Option String := none
  matchTitle : Option String := none
  warning : Option String := none
  deriving DecidableEq, Repr

/-- The `risk_patterns` table of `OptimizedComplianceChecker.__init__`
(`vapi_assistant_optimized.py` lines 194-204), in Python dict iteration
order: the `red_flag` entry precedes the `caution` entry. -/
def risk_patterns_optimized : List (String × List String) :=
  [("red_flag",
    ["6 monate", "sechs monate", "deposit more than",
     "no notice", "sofort", "immediate", "cash only",
     "bar nur", "no contract", "kein vertrag"]),
   ("caution",
    ["3 monate", "drei monate", "additional fees",
     "sondergebühren", "non-refundable", "nicht erstattungsfähig"])]

/-- Inner loop of the fast tier: first pattern of one level contained in the
lowered text. -/
def firstPat (level tl : String) : List String → Option (String × String)
  | [] => none
  | p :: ps => if containsSub p tl then some (level, p) else firstPat level tl ps

/-- The nested `for level, patterns in self.risk_patterns.items(): for pattern
in patterns: if pattern in text_lower: ...` loops of
`OptimizedComplianceChecker.check_compliance` (lines 225-233). -/
def checkFast (tl : String) : List (String × List String) → Option (String × String)
  | [] => none
  | lp :: rest =>
    match firstPat lp.1 tl lp.2 with
    | some r => some r
    | none => checkFast tl rest

/-- The fast-tier table flattened in iteration order; `find?` over it is the
specification's notion of "first matching pattern in table iteration order". -/
def tableEntries (table : List (String × List String)) : List (String × String) :=
  table.flatMap (fun lp => lp.2.map (fun p => (lp.1, p)))

/-- `OptimizedComplianceChecker._get_warning_message` (lines 256-262). -/
def get_warning_message (level : String) : String :=
  if level == "red_flag" then "⚠️ WARNING: This may violate tenant protection laws!"
  else if level == "caution" then "⚡ CAUTION: Verify this in writing."
  else ""

/-- Python `level.replace("_", " ")` for the single-character pattern used at
line 230 (character-wise replacement coincides with `str.replace` here). -/
def underscore_to_space (s : String) : String :=
  ⟨s.data.map (fun c => if c == '_' then ' ' else c)⟩

/-- `OptimizedComplianceChecker.check_compliance` (lines 218-254).
The Qdrant round trip is the oracle `search`; `none` models
`self.qdrant.search` raising (caught by the `try/except` at lines 236-251).
The second component records every `search` invocation with the literal
arguments of line 237-241 (`limit=2`, `risk_filter="red flag"`); the float
threshold `0.8` of line 243 is the rational `4/5`. -/
def check_compliance_optimized (search : String → Option (List Chunk)) (text : String) :
    ComplianceResult × List SearchCall :=
  let tl := pyLower text
  match checkFast tl risk_patterns_optimized with
  | some lp =>
    ({ risk_level := underscore_to_space lp.1, pattern := some lp.2,
       warning := some (get_warning_message lp.1) }, [])
  | none =>
    match search text with
    | some results =>
      match results with
      | r :: _ =>
        if r.score > (4 : ℚ)/5 then
          ({ risk_level := "red flag", matchTitle := some r.title,
             warning := some "⚠️ WARNING: This may violate tenant protection laws!" },
           [⟨text, 2, "red flag"⟩])
        else
          ({ risk_level := "normal" }, [⟨text, 2, "red flag"⟩])
      | [] => ({ risk_level := "normal" }, [⟨text, 2, "red flag"⟩])
    | none => ({ risk_level := "normal" }, [⟨text, 2, "red flag"⟩])

/-- `ComplianceChecker.risk_patterns` of `vapi_assistant.py` (lines 94-103). -/
def risk_patterns_basic : List String :=
  ["deposit more than", "6 months deposit", "no notice period",
   "immediate eviction", "cash only", "no contract", "you must pay",
   "illegal fee"]

/-- The dictionary returned by `ComplianceChecker.check_compliance` of
`vapi_assistant.py` (lines 125-135). -/
structure BasicComplianceResult where
  risk_level : String
  quick_matches : List String
  related_rules : List (String × String × String)
  deriving DecidableEq, Repr

/-- `ComplianceChecker.check_compliance` of `vapi_assistant.py` (lines
105-135). The Qdrant search at lines 112-116 is *not* wrapped in any
`try/except`, so a raising `search` oracle (`none`) makes the whole call
raise: modelled by `Except.error ()`. Thresholds `0.7`/`0.85` of lines
120-123 are `7/10` and `17/20`. The search is issued unconditionally, before
the risk level is computed, hence the recorded `SearchCall` in every branch
(`limit=3`, `risk_filter="red flag"`). -/
def check_compliance_basic (search : String → Option (List Chunk)) (text : String) :
    Except Unit BasicComplianceResult × List SearchCall :=
  let tl := pyLower text
  let quick := risk_patterns_basic.filter (fun p => containsSub p tl)
  match search text with
  | none => (Except.error (), [⟨text, 3, "red flag"⟩])
  | some results =>
    let risk1 := if !quick.isEmpty || results.any (fun r => r.score > (7 : ℚ)/10)
      then "caution" else "normal"
    let risk := if results.any (fun r => r.score > (17 : ℚ)/20) then "red flag" else risk1
    (Except.ok
      { risk_level := risk, quick_matches := quick,
        related_rules := results.map (fun r => (r.title, r.key_rule, r.expat_implication)) },
     [⟨text, 3, "red flag"⟩])

/-- Sentence-terminal characters of the regex `[^.!?]+[.!?]+` in
`StreamingProcessor._extract_sentences` (line 178). -/
def isTerminal (c : Char) : Bool := c == '.' || c == '!' || c == '?'

/-- Character-level scanner equivalent to `re.findall(r'[^.!?]+[.!?]+', text)`:
leftmost non-overlapping maximal runs of non-terminal characters followed by
terminal characters; leading terminals and a trailing unterminated run match
nothing. `acc` holds the current candidate reversed; `inTerm` records whether
the candidate has already consumed terminal characters. -/
def sentAux (acc : List Char) (inTerm : Bool) : List Char → List (List Char)
  | [] => if inTerm then [acc.reverse] else []
  | c :: rest =>
    if inTerm then
      if isTerminal c then sentAux (c :: acc) true rest
      else acc.reverse :: sentAux [c] false rest
    else
      if isTerminal c then
        if acc.isEmpty then sentAux [] false rest
        else sentAux (c :: acc) true rest
      else sentAux (c :: acc) false rest

/-- `StreamingProcessor._extract_sentences` (lines 174-179): regex findall,
then `[s.strip() for s in sentences if s.strip()]`. -/
def extract_sentences (text : String) : List String :=
  ((sentAux [] false text.data).map (fun l => pyStrip ⟨l⟩)).filter (fun s => s ≠ "")

/-- `LocalTranslationService.translate` cache key `f"{text[:100]}:{source_lang}:{target_lang}"`
(line 85). -/
def cache_key (text source target : String) : String :=
  (⟨text.data.take 100⟩ : String) ++ ":" ++ source ++ ":" ++ target

/-- Lookup in the translation cache dict (keys are unique, see
`local_translate`). -/
def lookupCache (cache : List (String × String)) (key : String) : Option String :=
  (cache.find? (fun kv => kv.1 == key)).map (fun kv => kv.2)

/-- `LocalTranslationService.translate` (`vapi_assistant_optimized.py` lines
80-104) in the configuration where `_load_models` failed and both
`self.de_to_en` and `self.en_to_de` are `None` (the local transformer
pipelines are external collaborators; when they are unavailable every
language branch at lines 91-94 is dead and line 97 produces the
`f"[{target_lang.upper()}] {text}"` placeholder). The cache dict is an
association list with unique keys; `self.cache_size` is 1000 and insertion
is skipped once the cache is full (lines 100-101). -/
def local_translate (cache : List (String × String)) (text source target : String) :
    String × List (String × String) :=
  let key := cache_key text source target
  match lookupCache cache key with
  | some v => (v, cache)
  | none =>
    let result := "[" ++ pyUpper target ++ "] " ++ text
    let cache' := if cache.length < 1000 then cache ++ [(key, result)] else cache
    (result, cache')

/-- Mutable state of the single global `StreamingProcessor` together with the
cache of its `LocalTranslationService` (`self.buffer`, line 123, and
`translator.cache`, line 47). The unused `self.last_processed` field is
omitted. -/
structure StreamState where
  buffer : String
  cache : List (String × String)
  deriving DecidableEq, Repr

/-- The JSON object returned by `StreamingProcessor.process_stream`: either
`{"status": "buffering"}` or the translation/compliance payload of lines
157-168. `processed` instruments which sentence texts were dispatched to the
translator/compliance tasks (the `tasks` list of lines 143-146); latency
fields are omitted. -/
structure StreamResponse where
  status : Option String := none
  translation : Option String := none
  compliance : Option ComplianceResult := none
  is_final : Option Bool := none
  warning : Option String := none
  processed : List String := []
  deriving DecidableEq, Repr

/-- `StreamingProcessor._generate_warning` (lines 181-187). -/
def generate_warning (c : ComplianceResult) : String :=
  if c.risk_level == "red flag" then "⚠️ WARNING: This may violate tenant protection laws!"
  else if c.risk_level == "caution" then "⚡ CAUTION: Verify this in writing."
  else ""

/-- `StreamingProcessor.process_stream` (lines 126-172): append
`" " + transcript` to the buffer, extract sentences from the *whole* buffer,
return `{"status": "buffering"}` when none, otherwise translate and
compliance-check only `sentences[-1]` (line 140) with the hard-coded language
pair `("de", "en")` of line 144. Neither branch of `asyncio.gather` can raise
in this model (the compliance checker catches search failures itself and the
model-less translator is total), so the `isinstance(..., Exception)`
fallbacks of lines 151-152 are dead and omitted. -/
def process_stream (search : String → Option (List Chunk)) (st : StreamState)
    (transcript : String) (is_final : Bool) : StreamResponse × StreamState :=
  let buffer := st.buffer ++ " " ++ transcript
  let sentences := extract_sentences buffer
  if sentences.isEmpty then
    ({ status := some "buffering" }, { st with buffer := buffer })
  else
    let latest := sentences.getLastD ""
    let tr := local_translate st.cache latest "de" "en"
    let compliance := (check_compliance_optimized search latest).1
    ({ translation := some tr.1, compliance := some compliance,
       is_final := some is_final,
       warning := if compliance.risk_level == "normal" then none
                  else some (generate_warning compliance),
       processed := [latest] },
     { buffer := buffer, cache := tr.2 })

/-- One `speech.update` webhook request as received by the optimized
`vapi_webhook` (lines 311-330): the VAPI call id is present in the JSON body
(`data["call"]["id"]`) but this handler never reads it — every event is
forwarded to the single module-level `stream_processor` of line 268. -/
structure WebhookEvent where
  sessionId : String
  transcript : String
  is_final : Bool
  deriving DecidableEq, Repr

/-- Folding the optimized `/vapi/webhook` handler over a list of
`speech.update` events: each event is handed to the shared global
`StreamingProcessor` (lines 320-330), threading its single state. -/
def runEvents (search : String → Option (List Chunk)) :
    StreamState → List WebhookEvent → List StreamResponse
  | _, [] => []
  | st, e :: es =>
    let r := process_stream search st e.transcript e.is_final
    r.1 :: runEvents search r.2 es

/-- Per-call session dict of `webhook_translator.py` / `apps/api/main.py`
(lines 94-99 resp. 358-363): default landlord language `"de"`, default
tenant language `"en"`, plus the `current_speaker` slot. -/
structure Session where
  landlord_language : String := "de"
  tenant_language : String := "en"
  current_speaker : Option String := none
  deriving DecidableEq, Repr

/-- The session freshly created for an unknown call id. -/
def default_session : Session := {}

/-- `any(char in transcript for char in "äöüß")` (webhook_translator.py line
135 / main.py line 399). -/
def hasUmlaut (t : String) : Bool :=
  "äöüß".data.any (fun c => t.data.contains c)

/-- `any(word in transcript.lower() for word in ["the", "and", "is", "you"])`
(webhook_translator.py line 137 / main.py line 401); note these are substring
tests, not word tests. -/
def en_heuristic (t : String) : Bool :=
  ["the", "and", "is", "you"].any (fun w => containsSub w (pyLower t))

/-- The `risks` table of `check_compliance` in `apps/api/main.py` (lines
485-489), identical to `ComplianceChecker.risks` in `webhook_translator.py`
(lines 60-64), in dict iteration order. -/
def risks_simple : List (String × String) :=
  [("6 months", "⚠️ WARNING: Maximum 3 months deposit allowed!"),
   ("sofort", "⚠️ WARNING: 3-month notice period required!"),
   ("cash only", "⚡ CAUTION: Bank transfer recommended!")]

/-- `check_compliance` of `apps/api/main.py` (lines 483-498) =
`ComplianceChecker.check` of `webhook_translator.py` (lines 66-75): first
pattern of `risks_simple` contained in the lowered text wins; the risk level
is `"red flag"` when the warning text contains `"WARNING"`, else
`"caution"`; no pattern means `"normal"`. -/
def check_compliance_simple (text : String) : ComplianceResult :=
  let tl := pyLower text
  match risks_simple.find? (fun pw => containsSub pw.1 tl) with
  | some pw =>
    { risk_level := if containsSub "WARNING" pw.2 then "red flag" else "caution",
      warning := some pw.2 }
  | none => { risk_level := "normal" }

/-- The hard-coded demo table of `TranslationService.translate` in
`webhook_translator.py` (lines 30-33) / `apps/api/main.py` (lines 58-61),
used when `DEEPL_API_KEY` is unset. -/
def fallback_translations : List ((String × String × String) × String) :=
  [(("Die Kaution beträgt 6 Monatsmieten.", "de", "en"),
    "The security deposit is 6 months' rent."),
   (("The rent is 800 euros", "en", "de"),
    "Die Miete ist 800 Euro.")]

/-- The `if not self.deepl_key` branch of `TranslationService.translate`
(`webhook_translator.py` lines 28-35 / `main.py` lines 56-63):
`translations.get(key, f"[{target_lang.upper()}] {text}")`. -/
def translate_no_key (text source target : String) : String :=
  match fallback_translations.find? (fun kv => kv.1 == (text, source, target)) with
  | some kv => kv.2
  | none => "[" ++ pyUpper target ++ "] " ++ text

/-- `TranslationService.translate` of `webhook_translator.py` / `main.py`
(lines 26-55 resp. 54-83). `deepl = none` models an unset `DEEPL_API_KEY`
(demo-table branch, zero backend calls); `deepl = some d` models a configured
key, where `d` returning `none` covers the request raising or answering with
a non-200 status (the function then falls through and returns the input,
line 55/83). The second component counts DeepL invocations. -/
def service_translate (deepl : Option (String → String → String → Option String))
    (text source target : String) : String × Nat :=
  match deepl with
  | none => (translate_no_key text source target, 0)
  | some d =>
    match d text source target with
    | some r => (r, 1)
    | none => (text, 1)

/-- The JSON object answered by the `speech.update` branch of `vapi_webhook`
in `webhook_translator.py` (lines 114-174) / `apps/api/main.py` (lines
378-438): either `{"status": "processing"}` or the
instructions/translation/compliance payload. `actions` keeps the texts of the
emitted `{"type": "speak", "text": ...}` actions in order; `fromLang`/`toLang`
are the `"from"`/`"to"` keys of the `"translation"` object. -/
structure SpeechResponse where
  status : Option String := none
  actions : List String := []
  original : Option String := none
  translated : Option String := none
  fromLang : Option String := none
  toLang : Option String := none
  compliance : Option ComplianceResult := none
  deriving DecidableEq, Repr

/-- The `speech.update` branch of `vapi_webhook` in `webhook_translator.py`
(lines 114-174), duplicated verbatim in `apps/api/main.py` (lines 378-438).
`tr` is the translator (`TranslationService.translate`); the handler:
rejects empty or non-final transcripts with `{"status": "processing"}`,
stores the speaker, picks source/target from the session's speaker
languages, *overrides* the source language by the umlaut / English-word
heuristics of lines 134-138, translates, and — per the inverted conditional
of lines 144-146 (`translated if source_lang == "en" else transcript`,
despite the comment "always check in English") — compliance-checks the
translated text when the source is English and the raw transcript otherwise. -/
def handle_speech_update (tr : String → String → String → String) (session : Session)
    (transcript speaker : String) (is_final : Bool) : SpeechResponse × Session :=
  if transcript == "" || !is_final then
    ({ status := some "processing" }, session)
  else
    let session := { session with current_speaker := some speaker }
    let langs := if speaker == "landlord"
      then (session.landlord_language, session.tenant_language)
      else (session.tenant_language, session.landlord_language)
    let source := if hasUmlaut transcript then "de"
      else if en_heuristic transcript then "en"
      else langs.1
    let target := langs.2
    let translated := tr transcript source target
    let compliance_result :=
      check_compliance_simple (if source == "en" then translated else transcript)
    let actions :=
      (if translated == transcript then [] else [translated]) ++
      (if compliance_result.risk_level == "normal" then []
       else [compliance_result.warning.getD ""])
    ({ actions := actions, original := some transcript, translated := some translated,
       fromLang := some source, toLang := some target,
       compliance := some compliance_result }, session)

/-- `TranslationService.translate` of `vapi_assistant.py` (lines 43-86): try
DeepL, then Google, then return the original text. `deepl_key`/`google_key`
model whether the respective API key is configured (lines 46, 66); the call
oracles returning `none` cover an exception, a timeout, or a non-200 status
of that attempt. This service maintains no cache. -/
def multi_translate (deepl_key google_key : Bool)
    (deepl_call google_call : String → String → String → Option String)
    (text source target : String) : String :=
  match (if deepl_key then deepl_call text source target else none) with
  | some r => r
  | none =>
    match (if google_key then google_call text source target else none) with
    | some r => r
    | none => text

/-- Request body of the `/translate` endpoint (`apps/api/main.py` lines
140-144). -/
structure TranslateReq where
  text : String
  source_language : String := "en"
  target_language : String := "en"
  deriving DecidableEq, Repr

/-- Response body of the `/translate` endpoint (lines 146-149). -/
structure TranslateResp where
  translated_text : String
  source_language : String
  target_language : String
  deriving DecidableEq, Repr

/-- The `/translate` endpoint of `apps/api/main.py` (lines 527-580).
`backend = none` models a missing `OPENAI_API_KEY` (or unimportable client);
`backend = some b` models the chat-completion call, where `b` returning
`none` covers the call raising (the `except` branch returns the input) and a
returned empty content falls back to `req.text` via the `or` of line 568.
The second component counts backend invocations. The same-language shortcut
of lines 530-536 answers before any cache or backend is consulted (this
endpoint has no cache at all). -/
def translate_endpoint (backend : Option (String → String → String → Option String))
    (req : TranslateReq) : TranslateResp × Nat :=
  if req.source_language == req.target_language then
    ({ translated_text := req.text, source_language := req.source_language,
       target_language := req.target_language }, 0)
  else
    match backend with
    | none =>
      ({ translated_text := req.text, source_language := req.source_language,
         target_language := req.target_language }, 0)
    | some b =>
      match b req.text req.source_language req.target_language with
      | some content =>
        ({ translated_text := pyStrip (if content == "" then req.text else content),
           source_language := req.source_language,
           target_language := req.target_language }, 1)
      | none =>
        ({ translated_text := req.text, source_language := req.source_language,
           target_language := req.target_language }, 1)

/-! ## Helper lemmas -/

theorem firstPat_eq_find? (level tl : String) (ps : List String) :
    firstPat level tl ps
      = (ps.map (fun p => (level, p))).find? (fun e => containsSub e.2 tl) := by
  induction ps with
  | nil => rfl
  | cons p ps ih =>
    by_cases h : containsSub p tl = true
    · simp [firstPat, h, List.find?_cons_of_pos]
    · simp only [Bool.not_eq_true] at h
      simp [firstPat, h, List.find?_cons_of_neg, ih]

theorem checkFast_eq_find? (tl : String) (table : List (String × List String)) :
    checkFast tl table
      = (tableEntries table).find? (fun e => containsSub e.2 tl) := by
  induction table with
  | nil => rfl
  | cons lp rest ih =>
    simp only [checkFast, tableEntries, List.flatMap_cons, List.find?_append,
      ← firstPat_eq_find?, ih]
    cases firstPat lp.1 tl lp.2 <;> simp [tableEntries]

/-! ## C6 -/

/-- C6: for every text whose lowering contains at least one fast-tier risk
pattern (hypothesis: the first matching entry of the flattened table, in
iteration order, is `(level, pattern)`), the optimized compliance check
returns the table's risk level for that first matching pattern (with the
level's underscore replaced by a space and the level's warning text), issues
no KnowledgeStore search, and its result is independent of the search
oracle — so it is deterministic across calls. -/
theorem C6_fast_tier_first_match (s₁ s₂ : String → Option (List Chunk))
    (text level pattern : String)
    (h : (tableEntries risk_patterns_optimized).find?
        (fun e => containsSub e.2 (pyLower text)) = some (level, pattern)) :
    (check_compliance_optimized s₁ text).1
        = { risk_level := underscore_to_space level, pattern := some pattern,
            warning := some (get_warning_message level) }
      ∧ (check_compliance_optimized s₁ text).2 = []
      ∧ check_compliance_optimized s₁ text = check_compliance_optimized s₂ text := by
  have hfast : checkFast (pyLower text) risk_patterns_optimized = some (level, pattern) := by
    rw [checkFast_eq_find?]; exact h
  simp [check_compliance_optimized, hfast]

/-- Witness for C6 at the concrete text "Sofort 3 Monate", which contains the
red-flag pattern "sofort" (first in table order) and the caution pattern
"3 monate": the first match wins and yields risk level "red flag". -/
theorem C6_fast_tier_first_match_witness :
    (tableEntries risk_patterns_optimized).find?
        (fun e => containsSub e.2 (pyLower "Sofort 3 Monate"))
        = some ("red_flag", "sofort")
      ∧ (check_compliance_optimized (fun _ => none) "Sofort 3 Monate").1
        = { risk_level := "red flag", pattern := some "sofort",
            warning := some "⚠️ WARNING: This may violate tenant protection laws!" }
      ∧ (check_compliance_optimized (fun _ => none) "Sofort 3 Monate").2 = []
      ∧ check_compliance_optimized (fun _ => none) "Sofort 3 Monate"
        = check_compliance_optimized (fun _ => some []) "Sofort 3 Monate" := by
  have h := C6_fast_tier_first_match (fun _ => none) (fun _ => some [])
    "Sofort 3 Monate" "red_flag" "sofort" (by decide)
  exact ⟨by decide, h.1, h.2.1, h.2.2⟩

/-! ## C7 -/

/-- C7 counterexample: the claim demands risk level "caution" whenever the
semantic tier's best score lies strictly between the lower threshold 0.7 and
the high threshold 0.85. For the text "Guten Tag" (no fast-tier pattern) and
a KnowledgeStore answering one chunk with score 3/4 = 0.75, the optimized
checker instead returns "normal": its semantic tier has no caution level and
compares only against 0.8. -/
theorem C7_counterexample :
    checkFast (pyLower "Guten Tag") risk_patterns_optimized = none
      ∧ (3 : ℚ)/4 > 7/10
      ∧ ¬ ((3 : ℚ)/4 > 17/20)
      ∧ (check_compliance_optimized
          (fun _ => some [⟨3/4, "Deposit limit", "", ""⟩]) "Guten Tag").1.risk_level
        = "normal"
      ∧ (check_compliance_optimized
          (fun _ => some [⟨3/4, "Deposit limit", "", ""⟩]) "Guten Tag").1.risk_level
        ≠ "caution" := by
  have hfast : checkFast (pyLower "Guten Tag") risk_patterns_optimized = none := by decide
  have hres : (check_compliance_optimized
      (fun _ => some [⟨3/4, "Deposit limit", "", ""⟩]) "Guten Tag").1
      = { risk_level := "normal" } := by
    simp only [check_compliance_optimized, hfast]
    norm_num
  refine ⟨hfast, by norm_num, by norm_num, by rw [hres], by rw [hres]; decide⟩

/-- C7 (amended): for every text matching no fast-tier pattern, the optimized
checker issues exactly one KnowledgeStore search with `limit = 2` and risk
filter "red flag"; it returns "red flag" exactly when the search succeeds
with a nonempty result list whose first (top-ranked) score exceeds 0.8, and
"normal" in every other case — the semantic tier never produces "caution".
Conversely, when a fast-tier pattern does match, no search is issued, so the
search happens only when the fast tier found nothing. -/
theorem C7_semantic_tier (s : String → Option (List Chunk)) (text : String)
    (h : checkFast (pyLower text) risk_patterns_optimized = none) :
    (check_compliance_optimized s text).2 = [⟨text, 2, "red flag"⟩]
      ∧ ((check_compliance_optimized s text).1.risk_level = "red flag"
          ∨ (check_compliance_optimized s text).1.risk_level = "normal")
      ∧ ((check_compliance_optimized s text).1.risk_level = "red flag"
          ↔ ∃ r rest, s text = some (r :: rest) ∧ r.score > (4 : ℚ)/5)
      ∧ (∀ lp, checkFast (pyLower text) risk_patterns_optimized = some lp
          → (check_compliance_optimized s text).2 = []) := by
  have h4 : ∀ lp, checkFast (pyLower text) risk_patterns_optimized = some lp
      → (check_compliance_optimized s text).2 = [] := by
    intro lp hlp
    rw [h] at hlp
    cases hlp
  rcases hs : s text with _ | (_ | ⟨r, rest⟩)
  · have e : check_compliance_optimized s text
        = ({ risk_level := "normal" }, [⟨text, 2, "red flag"⟩]) := by
      simp [check_compliance_optimized, h, hs]
    refine ⟨by rw [e], Or.inr (by rw [e]), ?_, h4⟩
    rw [e]
    simp [hs]
  · have e : check_compliance_optimized s text
        = ({ risk_level := "normal" }, [⟨text, 2, "red flag"⟩]) := by
      simp [check_compliance_optimized, h, hs]
    refine ⟨by rw [e], Or.inr (by rw [e]), ?_, h4⟩
    rw [e]
    simp [hs]
  · by_cases hsc : r.score > (4 : ℚ)/5
    · have e : check_compliance_optimized s text
          = ({ risk_level := "red flag", matchTitle := some r.title,
               warning := some "⚠️ WARNING: This may violate tenant protection laws!" },
             [⟨text, 2, "red flag"⟩]) := by
        simp [check_compliance_optimized, h, hs, hsc]
      refine ⟨by rw [e], Or.inl (by rw [e]), ?_, h4⟩
      rw [e]
      simp only [true_iff, iff_true]
      exact ⟨r, rest, rfl, hsc⟩
    · have e : check_compliance_optimized s text
          = ({ risk_level := "normal" }, [⟨text, 2, "red flag"⟩]) := by
        simp [check_compliance_optimized, h, hs, hsc]
      refine ⟨by rw [e], Or.inr (by rw [e]), ?_, h4⟩
      rw [e]
      simp only [hs, Option.some.injEq, List.cons.injEq]
      constructor
      · intro hfalse
        exact absurd hfalse (by decide)
      · rintro ⟨r', rest', ⟨hr, -⟩, hsc'⟩
        exact absurd (hr ▸ hsc') hsc

/-- Witness for C7 at "Guten Tag" (no fast-tier pattern) with a search oracle
answering one chunk of score 9/10 > 0.8: exactly one search call with limit 2
and filter "red flag", and risk "red flag". -/
theorem C7_semantic_tier_witness :
    checkFast (pyLower "Guten Tag") risk_patterns_optimized = none
      ∧ (check_compliance_optimized
          (fun _ => some [⟨9/10, "Deposit limit", "", ""⟩]) "Guten Tag").2
        = [⟨"Guten Tag", 2, "red flag"⟩]
      ∧ (check_compliance_optimized
          (fun _ => some [⟨9/10, "Deposit limit", "", ""⟩]) "Guten Tag").1.risk_level
        = "red flag" := by
  have h := C7_semantic_tier (fun _ => some [⟨9/10, "Deposit limit", "", ""⟩])
    "Guten Tag" (by decide)
  exact ⟨by decide, h.1,
    h.2.2.1.mpr ⟨⟨9/10, "Deposit limit", "", ""⟩, [], rfl, by norm_num⟩⟩

/-! ## C8 -/

/-- C8 counterexample: the claim says a failing KnowledgeStore search still
yields a "normal" result rather than propagating the failure — but
`ComplianceChecker.check_compliance` in `vapi_assistant.py` wraps its search
in no `try/except`: with a raising search oracle on the pattern-free text
"Guten Tag" it propagates the exception (`Except.error`) instead of
returning any result. -/
theorem C8_counterexample :
    (check_compliance_basic (fun _ => none) "Guten Tag").1 = Except.error () := by
  rfl

/-- C8 (amended): the *optimized* checker degrades as claimed — for every
text matching no fast-tier pattern, a failing search yields risk "normal"
with none of the chunk-bearing fields populated; the basic
`ComplianceChecker` of `vapi_assistant.py` instead propagates the failure
for every text. -/
theorem C8_search_failure_degrades (text : String)
    (h : checkFast (pyLower text) risk_patterns_optimized = none) :
    (check_compliance_optimized (fun _ => none) text).1
        = { risk_level := "normal", pattern := none, matchTitle := none, warning := none }
      ∧ (check_compliance_basic (fun _ => none) text).1 = Except.error () := by
  constructor
  · simp [check_compliance_optimized, h]
  · rfl

/-- Witness for C8 at the pattern-free text "Guten Tag". -/
theorem C8_search_failure_degrades_witness :
    checkFast (pyLower "Guten Tag") risk_patterns_optimized = none
      ∧ (check_compliance_optimized (fun _ => none) "Guten Tag").1
        = { risk_level := "normal", pattern := none, matchTitle := none, warning := none } := by
  exact ⟨by decide, (C8_search_failure_degrades "Guten Tag" (by decide)).1⟩

/-! ## C9 -/

/-- C9 counterexample: the claim says that when every backend attempt fails
the translator returns the original input unchanged and leaves the cache
unmodified — but `LocalTranslationService.translate` with its local-model
backends unavailable returns the placeholder "[EN] hallo" (not the original
"hallo") and inserts that placeholder into the previously empty cache. -/
theorem C9_counterexample :
    (local_translate [] "hallo" "de" "en").1 = "[EN] hallo"
      ∧ (local_translate [] "hallo" "de" "en").1 ≠ "hallo"
      ∧ (local_translate [] "hallo" "de" "en").2 = [("hallo:de:en", "[EN] hallo")]
      ∧ (local_translate [] "hallo" "de" "en").2 ≠ [] := by
  refine ⟨by decide, by decide, by decide, by decide⟩

/-- C9 (amended): the two-provider `TranslationService.translate` of
`vapi_assistant.py` does return the original text unchanged whenever every
configured backend attempt fails (whether or not the DeepL/Google keys are
present), and it maintains no cache at all; the optimized
`LocalTranslationService` instead returns a `"[TARGET] text"` placeholder
and caches it (see the counterexample). -/
theorem C9_all_backends_fail (dk gk : Bool)
    (dc gc : String → String → String → Option String) (text source target : String)
    (hd : dc text source target = none) (hg : gc text source target = none) :
    multi_translate dk gk dc gc text source target = text := by
  cases dk <;> cases gk <;> simp [multi_translate, hd, hg]

/-- Witness for C9: both providers configured, both attempts failing, on the
text "Guten Tag". -/
theorem C9_all_backends_fail_witness :
    multi_translate true true (fun _ _ _ => none) (fun _ _ _ => none)
      "Guten Tag" "de" "en" = "Guten Tag" := by
  exact C9_all_backends_fail true true (fun _ _ _ => none) (fun _ _ _ => none)
    "Guten Tag" "de" "en" rfl rfl

/-! ## C5 -/

/-- C5 counterexample: the claim says `translate(t, L, L) = t` with zero
backend invocations for *every* translate implementation — but the webhook
`TranslationService.translate` has no same-language shortcut: with no DeepL
key it returns the placeholder "[EN] hallo" ≠ "hallo" for
`translate("hallo", "en", "en")`, and with a configured key it performs one
DeepL invocation even for a same-language request. -/
theorem C5_counterexample :
    (service_translate none "hallo" "en" "en").1 = "[EN] hallo"
      ∧ (service_translate none "hallo" "en" "en").1 ≠ "hallo"
      ∧ (service_translate (some (fun t _ _ => some t)) "hallo" "en" "en").2 = 1 := by
  refine ⟨by decide, by decide, rfl⟩

/-- C5 (amended): the `/translate` endpoint of `apps/api/main.py` does
implement the claim: for every request with equal source and target
languages it returns the input text unchanged with zero backend invocations,
before any backend is even consulted (and this endpoint has no cache); the
webhook `TranslationService.translate` lacks this shortcut (see the
counterexample). -/
theorem C5_endpoint_same_language
    (backend : Option (String → String → String → Option String)) (req : TranslateReq)
    (h : req.source_language = req.target_language) :
    translate_endpoint backend req
      = ({ translated_text := req.text, source_language := req.source_language,
           target_language := req.target_language }, 0) := by
  simp [translate_endpoint, h]

/-- Witness for C5 at a concrete same-language request with a configured
backend. -/
theorem C5_endpoint_same_language_witness :
    translate_endpoint (some (fun t _ _ => some t)) ⟨"hallo", "en", "en"⟩
      = ({ translated_text := "hallo", source_language := "en",
           target_language := "en" }, 0) := by
  exact C5_endpoint_same_language (some (fun t _ _ => some t)) ⟨"hallo", "en", "en"⟩ rfl

/-! ## C2 -/

/-- C2 counterexample: feeding "Die Kaution beträgt 3 Monatsmieten. Und die
Miete?" as one final fragment, the claim demands that *both* extracted
utterances be processed; `process_stream` dispatches only the last one
("Und die Miete?") to translation/compliance — the first sentence is never
processed. -/
theorem C2_counterexample :
    (process_stream (fun _ => none) ⟨"", []⟩
        "Die Kaution beträgt 3 Monatsmieten. Und die Miete?" true).1.processed
      = ["Und die Miete?"]
      ∧ "Die Kaution beträgt 3 Monatsmieten." ∉
        (process_stream (fun _ => none) ⟨"", []⟩
          "Die Kaution beträgt 3 Monatsmieten. Und die Miete?" true).1.processed := by
  refine ⟨by decide, by decide⟩

/-- C2 (amended): the segmenter `_extract_sentences` does emit one stripped
sentence per terminal-punctuation run, left-to-right — on the buffer built
from the example fragment it yields exactly the two expected utterances in
order — but every `process_stream` call dispatches only the *last* extracted
sentence (`sentences[-1]`) to translation and compliance, not each one
separately. -/
theorem C2_segmenter_order_last_only :
    (∀ (s : String → Option (List Chunk)) (st : StreamState) (transcript : String)
        (b : Bool),
      (process_stream s st transcript b).1.processed
        = (if (extract_sentences (st.buffer ++ " " ++ transcript)).isEmpty then []
           else [(extract_sentences (st.buffer ++ " " ++ transcript)).getLastD ""]))
      ∧ extract_sentences (" " ++ "Die Kaution beträgt 3 Monatsmieten. Und die Miete?")
        = ["Die Kaution beträgt 3 Monatsmieten.", "Und die Miete?"] := by
  constructor
  · intro s st transcript b
    by_cases h : (extract_sentences (st.buffer ++ " " ++ transcript)).isEmpty
    · simp [process_stream, h]
    · simp [process_stream, h]
  · decide

/-! ## C3 -/

/-- C3 counterexample: after feeding the single final fragment "Hallo.", the
utterance "Hallo." is consumed (processed), yet the session buffer is
" Hallo." — the consumed prefix is *not* removed and the buffer still
contains the consumed text, contradicting the claimed invariant. -/
theorem C3_counterexample :
    (process_stream (fun _ => none) ⟨"", []⟩ "Hallo." true).1.processed = ["Hallo."]
      ∧ (process_stream (fun _ => none) ⟨"", []⟩ "Hallo." true).2.buffer = " Hallo."
      ∧ containsSub "Hallo."
          (process_stream (fun _ => none) ⟨"", []⟩ "Hallo." true).2.buffer = true := by
  refine ⟨by decide, by decide, by decide⟩

/-- C3 (amended): the buffer of the streaming processor is append-only —
every `process_stream` call leaves the buffer equal to the old buffer plus
`" " + transcript`, whether or not an utterance was emitted, so consumed
prefixes are never removed and the buffer grows by `transcript.length + 1`
characters on every call, without bound. -/
theorem C3_buffer_append_only (s : String → Option (List Chunk)) (st : StreamState)
    (transcript : String) (b : Bool) :
    (process_stream s st transcript b).2.buffer = st.buffer ++ " " ++ transcript
      ∧ ((process_stream s st transcript b).2.buffer.length
          = st.buffer.length + 1 + transcript.length) := by
  constructor
  · by_cases h : (extract_sentences (st.buffer ++ " " ++ transcript)).isEmpty
    · simp [process_stream, h]
    · simp [process_stream, h]
  · by_cases h : (extract_sentences (st.buffer ++ " " ++ transcript)).isEmpty
    · simp [process_stream, h, String.length_append]
      rfl
    · simp [process_stream, h, String.length_append]
      rfl

/-! ## C4 -/

/-- C4 counterexample: two calls share the single global
`StreamingProcessor`. Session "B" feeds the boundary-free fragment "Die
Miete ist 800 Euro"; session "A" then feeds "Kaution sofort zahlen.". With
the interleaved "B" event, "A"'s response differs from the response "A"
receives when run alone, and its translation payload contains "B"'s buffered
transcript text — sessions observe each other's buffer state. -/
theorem C4_counterexample :
    ((runEvents (fun _ => none) ⟨"", []⟩
        [⟨"B", "Die Miete ist 800 Euro", false⟩,
         ⟨"A", "Kaution sofort zahlen.", true⟩]).getLastD {}
      ≠ (runEvents (fun _ => none) ⟨"", []⟩
          [⟨"A", "Kaution sofort zahlen.", true⟩]).getLastD {})
      ∧ containsSub "Die Miete ist 800 Euro"
          (((runEvents (fun _ => none) ⟨"", []⟩
            [⟨"B", "Die Miete ist 800 Euro", false⟩,
             ⟨"A", "Kaution sofort zahlen.", true⟩]).getLastD {}).translation.getD "")
        = true := by
  refine ⟨by decide, by decide⟩

/-- C4 (amended): the optimized webhook routes every `speech.update` event of
every call to the one module-level `StreamingProcessor`; the handler never
reads the call id, so the produced responses are invariant under arbitrary
relabelling of the events' session ids — there is no per-session state at
all, and (per the counterexample) an interleaved second session alters and
leaks into the first session's responses. -/
theorem C4_session_id_ignored (s : String → Option (List Chunk)) (st : StreamState)
    (f : String → String) (events : List WebhookEvent) :
    runEvents s st (events.map (fun e => { e with sessionId := f e.sessionId }))
      = runEvents s st events := by
  induction events generalizing st with
  | nil => rfl
  | cons e es ih => simp [runEvents, ih]

/-! ## C10 -/

/-- C10: for every finalized non-empty `speech.update` transcript, whatever
languages the session is configured with and whatever translator backend is
in use, the source language the webhook reports (and translates from) is
overridden by the detection heuristic: a transcript containing one of the
characters ä, ö, ü, ß becomes source "de"; otherwise a transcript whose
lowering contains "the", "and", "is" or "you" as a *substring* becomes
source "en". -/
theorem C10_language_heuristic (tr : String → String → String → String)
    (session : Session) (transcript speaker : String) (hne : ¬ transcript = "") :
    (hasUmlaut transcript = true
      → (handle_speech_update tr session transcript speaker true).1.fromLang = some "de")
    ∧ (hasUmlaut transcript = false → en_heuristic transcript = true
      → (handle_speech_update tr session transcript speaker true).1.fromLang = some "en") := by
  constructor
  · intro hu
    simp [handle_speech_update, hne, hu]
  · intro hu he
    simp [handle_speech_update, hne, hu, he]

/-- Witness for C10: the German sentence "Die Miete ist 800 Euro" has no
umlaut but its lowering contains the substring "is" (inside "ist"), so even
with the default session (landlord configured as German) and the landlord
speaking, the reported source language is "en". -/
theorem C10_language_heuristic_witness :
    ¬ "Die Miete ist 800 Euro" = ""
      ∧ hasUmlaut "Die Miete ist 800 Euro" = false
      ∧ en_heuristic "Die Miete ist 800 Euro" = true
      ∧ (handle_speech_update translate_no_key default_session
          "Die Miete ist 800 Euro" "landlord" true).1.fromLang = some "en" := by
  refine ⟨by decide, by decide, by decide, ?_⟩
  exact (C10_language_heuristic translate_no_key default_session
    "Die Miete ist 800 Euro" "landlord" (by decide)).2 (by decide) (by decide)

/-! ## C1 -/

/-- C1: evaluation of the webhook at the specification's own scenario input.
For the finalized landlord transcript "Die Kaution beträgt 6 Monatsmieten."
(source detected as "de", i.e. not English) under the demo translator, the
translation is exactly "The security deposit is 6 months' rent." — whose
lowering contains the fast-tier pattern "6 months", and on which
`check_compliance` would return "red flag" with a non-empty warning — yet
the webhook's returned compliance result is `{"risk_level": "normal"}` with
no warning, because lines 144-146 (`webhook_translator.py`; duplicated at
`main.py` 408-410) check the *original* transcript whenever the source
language is not English, inverting their own comment "always check in
English". This refutes the claimed behaviour and exhibits the code bug. -/
theorem C1_compliance_checked_on_original :
    (handle_speech_update translate_no_key default_session
        "Die Kaution beträgt 6 Monatsmieten." "landlord" true).1.translated
      = some "The security deposit is 6 months' rent."
      ∧ (handle_speech_update translate_no_key default_session
          "Die Kaution beträgt 6 Monatsmieten." "landlord" true).1.fromLang = some "de"
      ∧ containsSub "6 months" (pyLower "The security deposit is 6 months' rent.") = true
      ∧ check_compliance_simple "The security deposit is 6 months' rent."
        = { risk_level := "red flag",
            warning := some "⚠️ WARNING: Maximum 3 months deposit allowed!" }
      ∧ (handle_speech_update translate_no_key default_session
          "Die Kaution beträgt 6 Monatsmieten." "landlord" true).1.compliance
        = some { risk_level := "normal" }
      ∧ (handle_speech_update translate_no_key default_session
          "Die Kaution beträgt 6 Monatsmieten." "landlord" true).1.compliance
        ≠ some { risk_level := "red flag",
                 warning := some "⚠️ WARNING: Maximum 3 months deposit allowed!" } := by
  refine ⟨by decide, by decide, by decide, by decide, by decide, by decide⟩
